import Mathlib

/-!
# Verification of the EC800X stable-transmission core

Shallow embedding of `ec800x_test.py` (class `EC800XStableTransmission`).
External I/O (the serial modem and the wall clock / random generator) is made
explicit: every AT-command reply that the code parses is an input string, and
the values sampled from `datetime.now()` / `random.randint` are parameters.
Python `float` arithmetic is modelled with exact rationals (all quantities
involved are small exact values); Python `int` is `Int`; byte strings are
`List Nat` (each entry < 256).
-/

/-! ## Python string primitives (on `List Char`)

`pyIn needle hay` is Python's `needle in hay`; `pySplitStr` is
`str.split(sep)` for a non-empty separator; `pyStrip` is `str.strip()`;
`parsePyInt` is `int(s)` on an already-stripped string (returning `none`
where Python raises `ValueError`).
-/

def listStartsWith : List Char → List Char → Bool
  | [], _ => true
  | _ :: _, [] => false
  | a :: as, b :: bs => a == b && listStartsWith as bs

def findSub (sep : List Char) : List Char → Option Nat
  | [] => none
  | c :: cs => if listStartsWith sep (c :: cs) then some 0 else (findSub sep cs).map (· + 1)

def pyIn (needle hay : String) : Bool :=
  (findSub needle.data hay.data).isSome

def pySplitGo (sep : List Char) : Nat → List Char → List (List Char)
  | 0, s => [s]
  | fuel + 1, s =>
    match findSub sep s with
    | none => [s]
    | some i => s.take i :: pySplitGo sep fuel (s.drop (i + sep.length))

def pySplitStr (sep s : String) : List String :=
  (pySplitGo sep.data (s.data.length + 1) s.data).map fun l => ⟨l⟩

def pyWhitespace (c : Char) : Bool :=
  c = ' ' || c = '\t' || c = '\n' || c = '\r'

def pyStrip (s : String) : String :=
  ⟨((s.data.dropWhile pyWhitespace).reverse.dropWhile pyWhitespace).reverse⟩

def digitsToNat (ds : List Char) : Nat :=
  ds.foldl (fun a c => a * 10 + (c.toNat - 48)) 0

def parsePyInt (s : String) : Option Int :=
  match s.data with
  | [] => none
  | '-' :: ds =>
    if ds ≠ [] ∧ ds.all (·.isDigit) then some (-(digitsToNat ds : Int)) else none
  | '+' :: ds =>
    if ds ≠ [] ∧ ds.all (·.isDigit) then some (digitsToNat ds : Int) else none
  | ds =>
    if ds.all (·.isDigit) then some (digitsToNat ds : Int) else none

/-- Python `int(q)` on an exact rational: truncation toward zero. -/
def pyTrunc (q : ℚ) : Int :=
  if q.num < 0 then -(((q.num.natAbs / q.den : Nat) : Int)) else ((q.num.natAbs / q.den : Nat) : Int)

/-! Exact rational arithmetic, written through `Rat.divInt` so that every
operation reduces in the kernel (the `Rat.add`/`Rat.mul` of the library are
irreducible).  `qAdd`/`qMul`/`qDiv` are proved below to agree with the field
operations of `ℚ`; `qDiv` inherits the `x / 0 = 0` convention. -/

def qAdd (a b : ℚ) : ℚ := Rat.divInt (a.num * b.den + b.num * a.den) ((a.den : Int) * b.den)

def qMul (a b : ℚ) : ℚ := Rat.divInt (a.num * b.num) ((a.den : Int) * b.den)

def qDiv (a b : ℚ) : ℚ := Rat.divInt (a.num * b.den) (b.num * a.den)

/-! ## Bytes, hex, and the MD5 digest

Byte strings are `List Nat` (entries < 256).  `md5Hex` is the RFC 1321 MD5
of a byte string rendered as the 32-character lowercase hex digest, i.e.
Python's `hashlib.md5(b).hexdigest()`.  Arithmetic is `Nat` reduced mod
`2 ^ 32` where the machine would wrap. -/

def hexDigitChar (n : Nat) : Char :=
  if n < 10 then Char.ofNat (48 + n) else Char.ofNat (87 + n)

def byteToHex (b : Nat) : List Char :=
  [hexDigitChar (b / 16 % 16), hexDigitChar (b % 16)]

def le4 (w : Nat) : List Nat :=
  [w % 256, w >>> 8 % 256, w >>> 16 % 256, w >>> 24 % 256]

/-- 4-byte big-endian ("network order") encoding of a 32-bit word. -/
def be4 (w : Nat) : List Nat :=
  [w >>> 24 % 256, w >>> 16 % 256, w >>> 8 % 256, w % 256]

def add32 (a b : Nat) : Nat := (a + b) % 4294967296

def not32 (x : Nat) : Nat := x ^^^ 4294967295

def rotl32 (x c : Nat) : Nat := ((x <<< c) ||| (x >>> (32 - c))) % 4294967296

def md5K : List Nat :=
  [0xd76aa478, 0xe8c7b756, 0x242070db, 0xc1bdceee,
   0xf57c0faf, 0x4787c62a, 0xa8304613, 0xfd469501,
   0x698098d8, 0x8b44f7af, 0xffff5bb1, 0x895cd7be,
   0x6b901122, 0xfd987193, 0xa679438e, 0x49b40821,
   0xf61e2562, 0xc040b340, 0x265e5a51, 0xe9b6c7aa,
   0xd62f105d, 0x02441453, 0xd8a1e681, 0xe7d3fbc8,
   0x21e1cde6, 0xc33707d6, 0xf4d50d87, 0x455a14ed,
   0xa9e3e905, 0xfcefa3f8, 0x676f02d9, 0x8d2a4c8a,
   0xfffa3942, 0x8771f681, 0x6d9d6122, 0xfde5380c,
   0xa4beea44, 0x4bdecfa9, 0xf6bb4b60, 0xbebfbc70,
   0x289b7ec6, 0xeaa127fa, 0xd4ef3085, 0x04881d05,
   0xd9d4d039, 0xe6db99e5, 0x1fa27cf8, 0xc4ac5665,
   0xf4292244, 0x432aff97, 0xab9423a7, 0xfc93a039,
   0x655b59c3, 0x8f0ccc92, 0xffeff47d, 0x85845dd1,
   0x6fa87e4f, 0xfe2ce6e0, 0xa3014314, 0x4e0811a1,
   0xf7537e82, 0xbd3af235, 0x2ad7d2bb, 0xeb86d391]

def md5S : List Nat :=
  [7, 12, 17, 22, 7, 12, 17, 22, 7, 12, 17, 22, 7, 12, 17, 22,
   5, 9, 14, 20, 5, 9, 14, 20, 5, 9, 14, 20, 5, 9, 14, 20,
   4, 11, 16, 23, 4, 11, 16, 23, 4, 11, 16, 23, 4, 11, 16, 23,
   6, 10, 15, 21, 6, 10, 15, 21, 6, 10, 15, 21, 6, 10, 15, 21]

def md5Pad (msg : List Nat) : List Nat :=
  let l := msg.length
  let z := (120 - (l + 1) % 64) % 64
  msg ++ [128] ++ List.replicate z 0 ++
    (le4 ((l * 8) % 4294967296) ++ le4 ((l * 8) >>> 32 % 4294967296))

def word16 (c : List Nat) (j : Nat) : Nat :=
  c.getD (4 * j) 0 + (c.getD (4 * j + 1) 0) <<< 8 +
    (c.getD (4 * j + 2) 0) <<< 16 + (c.getD (4 * j + 3) 0) <<< 24

def md5Round (M : Nat → Nat) (s4 : Nat × Nat × Nat × Nat) (i : Nat) :
    Nat × Nat × Nat × Nat :=
  let a := s4.1
  let b := s4.2.1
  let c := s4.2.2.1
  let d := s4.2.2.2
  let f :=
    if i < 16 then (b &&& c) ||| (not32 b &&& d)
    else if i < 32 then (d &&& b) ||| (not32 d &&& c)
    else if i < 48 then b ^^^ c ^^^ d
    else c ^^^ (b ||| not32 d)
  let g :=
    if i < 16 then i
    else if i < 32 then (5 * i + 1) % 16
    else if i < 48 then (3 * i + 5) % 16
    else (7 * i) % 16
  let tmp := add32 (add32 (add32 a f) (md5K.getD i 0)) (M g)
  (d, add32 b (rotl32 tmp (md5S.getD i 0)), b, c)

def md5Chunk (h : Nat × Nat × Nat × Nat) (chunk : List Nat) :
    Nat × Nat × Nat × Nat :=
  let r := (List.range 64).foldl (md5Round (word16 chunk)) h
  (add32 h.1 r.1, add32 h.2.1 r.2.1, add32 h.2.2.1 r.2.2.1, add32 h.2.2.2 r.2.2.2)

def chunks64 : Nat → List Nat → List (List Nat)
  | 0, _ => []
  | _ + 1, [] => []
  | fuel + 1, l => l.take 64 :: chunks64 fuel (l.drop 64)

def md5Hex (msg : List Nat) : String :=
  let padded := md5Pad msg
  let h := (chunks64 (padded.length + 1) padded).foldl md5Chunk
    (0x67452301, 0xefcdab89, 0x98badcfe, 0x10325476)
  ⟨(le4 h.1 ++ le4 h.2.1 ++ le4 h.2.2.1 ++ le4 h.2.2.2).foldr
    (fun b acc => byteToHex b ++ acc) []⟩

/-- UTF-8 encoding of one character. -/
def utf8Char (c : Char) : List Nat :=
  let n := c.toNat
  if n < 0x80 then [n]
  else if n < 0x800 then [0xC0 ||| (n >>> 6), 0x80 ||| (n &&& 0x3F)]
  else if n < 0x10000 then
    [0xE0 ||| (n >>> 12), 0x80 ||| ((n >>> 6) &&& 0x3F), 0x80 ||| (n &&& 0x3F)]
  else
    [0xF0 ||| (n >>> 18), 0x80 ||| ((n >>> 12) &&& 0x3F),
     0x80 ||| ((n >>> 6) &&& 0x3F), 0x80 ||| (n &&& 0x3F)]

/-- Python `s.encode('utf-8')`. -/
def utf8Encode (s : String) : List Nat :=
  s.data.foldr (fun c acc => utf8Char c ++ acc) []

/-! ## JSON records and `json.dumps`

The telemetry records handed to `generate_data_packet` are flat Python dicts
of JSON scalars (the shape `generate_sensor_data` produces; dict insertion
order is the association-list order).  `dumps_record` is
`json.dumps(d, ensure_ascii=False)` with the default separators
`(', ', ': ')`.  (Python float repr is floating-point formatting and is
outside this model; records here carry exact scalars.) -/

inductive JVal where
  | jint (n : Int)
  | jstr (s : String)
  | jbool (b : Bool)
  | jnull
deriving DecidableEq

abbrev SensorRecord := List (String × JVal)

def jsonEscapeChar (c : Char) : List Char :=
  if c = '"' then ['\\', '"']
  else if c = '\\' then ['\\', '\\']
  else if c = '\n' then ['\\', 'n']
  else if c = '\r' then ['\\', 'r']
  else if c = '\t' then ['\\', 't']
  else if c = '\x08' then ['\\', 'b']
  else if c = '\x0c' then ['\\', 'f']
  else if c.toNat < 32 then '\\' :: 'u' :: '0' :: '0' :: byteToHex c.toNat
  else [c]

def jsonQuote (s : String) : String :=
  ⟨'"' :: s.data.foldr (fun c acc => jsonEscapeChar c ++ acc) ['"']⟩

def dumpsScalar : JVal → String
  | .jint n => toString n
  | .jstr s => jsonQuote s
  | .jbool true => "true"
  | .jbool false => "false"
  | .jnull => "null"

def dumps_record (r : SensorRecord) : String :=
  "\x7b" ++
    String.intercalate ", " (r.map fun kv => jsonQuote kv.1 ++ ": " ++ dumpsScalar kv.2) ++
  "\x7d"

/-- CPython `d[k] = v`: overwrite in place if the key exists, else append. -/
def setItem : SensorRecord → String → JVal → SensorRecord
  | [], k, v => [(k, v)]
  | (k', v') :: rest, k, v =>
    if k' = k then (k, v) :: rest else (k', v') :: setItem rest k v


/-! ## Dynamically-typed values and `struct.pack`

`PyVal` captures the Python-level distinction that decides C1: the second
argument the code hands to `struct.pack('!II', …)` is a `str`, not an `int`.
`struct_pack_II` returns `none` exactly where CPython raises `struct.error`
(a non-int argument, or an int outside `0 ≤ n < 2^32`). -/

inductive PyVal where
  | pyInt (n : Int)
  | pyStr (s : String)
deriving DecidableEq

inductive PyErr where
  | structError
deriving DecidableEq

def struct_pack_II : PyVal → PyVal → Option (List Nat)
  | .pyInt a, .pyInt b =>
    if 0 ≤ a ∧ a < 4294967296 ∧ 0 ≤ b ∧ b < 4294967296 then
      some (be4 a.toNat ++ be4 b.toNat)
    else none
  | _, _ => none

/-! ## Session state

The mutable attributes of `EC800XStableTransmission` that the verified
operations read or write.  `packet_writes` logs the raw payload writes
(`self.ser.write(packet)` in `send_data_packet`); AT-command writes live in
the modem environment instead.  The persistent store (`database_manager`) is
an external collaborator and is not modelled. -/

structure ChannelState where
  quality_score : Int
  signal_strength : Int
  bit_error_rate : ℚ
deriving DecidableEq

structure Stats where
  total_packets : Int
  successful_packets : Int
  failed_packets : Int
  retransmissions : Int
  total_bytes : Int
  success_rate : ℚ
deriving DecidableEq

structure TransmissionConfig where
  packet_size : Int
  chunk_size : Int
  timeout : Int
  max_retries : Nat
  retry_delay : Int
  use_checksum : Bool
  use_sequence : Bool
  enable_fec : Bool
  compress_data : Bool
  adaptive_mode : Bool
deriving DecidableEq

structure EC800XState where
  channel_state : ChannelState
  transmission_stats : Stats
  sequence_counter : Int
  data_queue : List SensorRecord
  transmission_config : TransmissionConfig
  tcp_connected : Bool
  connection_id : Int
  packet_writes : List (List Nat)
deriving DecidableEq

def initChannelState : ChannelState :=
  { quality_score := 0, signal_strength := 0, bit_error_rate := 0 }

def initStats : Stats :=
  { total_packets := 0, successful_packets := 0, failed_packets := 0,
    retransmissions := 0, total_bytes := 0, success_rate := 0 }

def initConfig : TransmissionConfig :=
  { packet_size := 1024, chunk_size := 512, timeout := 15, max_retries := 5,
    retry_delay := 2, use_checksum := true, use_sequence := true,
    enable_fec := false, compress_data := false, adaptive_mode := true }

def initState : EC800XState :=
  { channel_state := initChannelState, transmission_stats := initStats,
    sequence_counter := 0, data_queue := [], transmission_config := initConfig,
    tcp_connected := false, connection_id := 0, packet_writes := [] }

/-! ## Packet codec (`generate_data_packet`, `_calculate_crc32`)

`now_iso` is the sampled `datetime.now().isoformat()` string and `seed_val`
the sampled `random.randint(1000, 9999)`; both are injected into the record
before serialization.  The `struct.error` CPython raises at
`struct.pack('!II', sequence, crc32)` propagates to the caller, after
`sequence_counter` has already been incremented. -/

/-- Source `_calculate_crc32` (note: despite its name and its `-> int`
annotation, it returns `hashlib.md5(data.encode('utf-8')).hexdigest()`,
which is a `str`). -/
def _calculate_crc32 (data : String) : PyVal :=
  .pyStr (md5Hex (utf8Encode data))

/-- The record the code serializes: the caller's record with `sequence`,
`timestamp`, and `checksum_seed` entries set (lines 574-577). -/
def enhanced_record (data : SensorRecord) (sequence : Int) (now_iso : String)
    (seed_val : Int) : SensorRecord :=
  setItem (setItem (setItem data "sequence" (.jint sequence))
    "timestamp" (.jstr now_iso)) "checksum_seed" (.jint seed_val)

/-- The serialized payload text (`json_data` at line 580). -/
def payload_json (data : SensorRecord) (sequence : Int) (now_iso : String)
    (seed_val : Int) : String :=
  dumps_record (enhanced_record data sequence now_iso seed_val)

def generate_data_packet (data : SensorRecord) (now_iso : String)
    (seed_val : Int) (st : EC800XState) :
    Except PyErr (List Nat × Int) × EC800XState :=
  let sequence := st.sequence_counter
  let st1 := { st with sequence_counter := st.sequence_counter + 1 }
  let json_data := payload_json data sequence now_iso seed_val
  let crc32 := _calculate_crc32 json_data
  match struct_pack_II (.pyInt sequence) crc32 with
  | none => (.error .structError, st1)
  | some packet_struct => (.ok (packet_struct ++ utf8Encode json_data, sequence), st1)

/-! ## Channel quality (`assess_channel_quality`, `_calculate_channel_quality_score`)

The three AT exchanges the assessment issues (`AT+CSQ`, `AT+CREG?`,
`AT+CGATT?`) are modelled by their (already echo-cleaned) reply strings.
Python float constants `0.5` and `0.2` are modelled as the exact `1/2` and
`1/5` (0.2 is not exactly representable in binary floating point; the
difference cannot move any integer result reached in this development). -/

structure ModemEnv where
  csqResp : String
  cregResp : String
  cgattResp : String

structure QualityReport where
  signal_strength : Int
  signal_quality : Int
  network_status : String
  recommended_action : String
  stability : String
deriving DecidableEq

/-- The report dict as initialized at lines 434-440 (the timestamp field, a
wall-clock string never read by the code, is omitted). -/
def initReport : QualityReport :=
  { signal_strength := 0, signal_quality := 0, network_status := "unknown",
    recommended_action := "none", stability := "" }

/-- Signal-quality percentage from a parsed RSSI (lines 457-460):
`0` for the unknown marker 99, else `min(int((rssi / 31) * 100), 100)`. -/
def signalQualityOf (rssi : Int) : Int :=
  if rssi = 99 then 0 else min (pyTrunc (qMul (qDiv (rssi : ℚ) 31) 100)) 100

/-- Parse of the `+CSQ:` reply, lines 448-451.  `none` models the exception
path of the surrounding `try` (nothing is assigned in that case). -/
def parse_csq (resp : String) : Option (Int × Int) :=
  let after := (pySplitStr "+CSQ:" resp).getD 1 ""
  let parts := pySplitStr "," after
  let p0 := pyStrip (parts.getD 0 "")
  let p1 := pyStrip (parts.getD 1 "")
  match (if p0 ≠ "" then parsePyInt p0 else some 99) with
  | none => none
  | some rssi =>
    match (if parts.length > 1 ∧ p1 ≠ "" then parsePyInt p1 else some 99) with
    | none => none
    | some ber => some (rssi, ber)

/-- `status_map.get(stat, "未知")` of lines 482-491. -/
def creg_status_map (stat : Int) : String :=
  if stat = 0 then "未注册"
  else if stat = 1 then "已注册(本地)"
  else if stat = 2 then "未注册(搜索中)"
  else if stat = 3 then "注册被拒绝"
  else if stat = 4 then "未知"
  else if stat = 5 then "已注册(漫游)"
  else "未知"

/-- Parse of the `+CREG:` reply, lines 477-480 (the inner `except: pass`
makes any parse failure leave the report untouched). -/
def parse_creg (resp : String) : Option Int :=
  let after := (pySplitStr "+CREG:" resp).getD 1 ""
  let parts := pySplitStr "," after
  if parts.length ≥ 2 then
    match parsePyInt (pyStrip (parts.getD 0 "")) with
    | none => none
    | some _ =>
      match parsePyInt (pyStrip (parts.getD 1 "")) with
      | none => none
      | some stat => some stat
  else none

/-- Source `_calculate_channel_quality_score` (lines 540-562): weighted sum
of the report's signal-quality percentage, a network-status contribution of
30/10/20 points, and the historical success rate, capped at 100. -/
def _calculate_channel_quality_score (qr : QualityReport) (stats : Stats) : Int :=
  let score : ℚ := 0
  let score := qAdd score (qMul (qr.signal_quality : ℚ) (Rat.divInt 1 2))
  let ns := qr.network_status
  let score := qAdd score
    (if pyIn "已注册" ns || pyIn "GPRS已附着" ns then 30
     else if pyIn "未注册" ns || pyIn "GPRS未附着" ns then 10
     else 20)
  let score := qAdd score
    (if stats.total_packets > 0 then qMul stats.success_rate (Rat.divInt 1 5) else 0)
  min (pyTrunc score) 100

/-- The stability/recommended-action branch of `assess_channel_quality`
(lines 513-529), factored as a function of the computed score. -/
def quality_tier_action (score : Int) : String × String :=
  if score ≥ 80 then ("优秀", "正常传输")
  else if score ≥ 60 then ("良好", "正常传输")
  else if score ≥ 40 then ("一般", "小包传输")
  else ("较差", "等待恢复")

def assess_channel_quality (m : ModemEnv) (st : EC800XState) :
    QualityReport × EC800XState :=
  -- step 1: signal strength
  let csq := if pyIn "+CSQ:" m.csqResp then parse_csq m.csqResp else none
  let report := match csq with
    | some rb =>
      { initReport with signal_strength := rb.1, signal_quality := signalQualityOf rb.1 }
    | none => initReport
  let cs := match csq with
    | some rb =>
      { st.channel_state with
        signal_strength := rb.1
        bit_error_rate := if rb.2 ≠ 99 then (rb.2 : ℚ) else 0 }
    | none => st.channel_state
  -- step 2: network registration
  let report := if pyIn "+CREG:" m.cregResp then
      match parse_creg m.cregResp with
      | some stat => { report with network_status := creg_status_map stat }
      | none => report
    else report
  -- step 3: GPRS attachment
  let report :=
    if pyIn "+CGATT: 1" m.cgattResp then { report with network_status := "GPRS已附着" }
    else if pyIn "+CGATT: 0" m.cgattResp then { report with network_status := "GPRS未附着" }
    else report
  -- step 4: combined score
  let score := _calculate_channel_quality_score report st.transmission_stats
  let cs := { cs with quality_score := score }
  -- step 5: stability tier and recommended action
  let ta := quality_tier_action score
  let report := { report with stability := ta.1, recommended_action := ta.2 }
  (report, { st with channel_state := cs })

/-! ## Adaptive parameter controller (`_adjust_transmission_parameters`)

The source calls `dict.update` on `transmission_config`: the six listed keys
are overwritten, every other key keeps its previous value. -/

def _adjust_transmission_parameters (qr : QualityReport) (st : EC800XState) :
    EC800XState :=
  let sq := qr.signal_quality
  let c := st.transmission_config
  let c :=
    if sq ≥ 80 then
      { c with
        packet_size := 2048
        chunk_size := 1024
        timeout := 10
        max_retries := 3
        enable_fec := false
        compress_data := true }
    else if sq ≥ 60 then
      { c with
        packet_size := 1024
        chunk_size := 512
        timeout := 15
        max_retries := 5
        enable_fec := false
        compress_data := false }
    else if sq ≥ 40 then
      { c with
        packet_size := 512
        chunk_size := 256
        timeout := 20
        max_retries := 8
        enable_fec := true
        compress_data := false }
    else
      { c with
        packet_size := 256
        chunk_size := 128
        timeout := 30
        max_retries := 10
        enable_fec := true
        compress_data := false }
  { st with transmission_config := c }

/-! ## TCP (re)connection and the reliable send engine

`establish_tcp_connection` (lines 384-425) loops up to 3 attempts; attempt
`i` succeeds iff the `AT+QIOPEN` reply contains `"+QIOPEN: <id>,0"` (the
`AT+QICLOSE` reply is ignored by the code).  `send_data_packet`
(lines 603-671) makes up to `transmission_config["max_retries"]` attempts;
the environment supplies, per attempt, the `AT+QISEND` prompt reply, the
send-status reply, and the QIOPEN replies used if a reconnect is needed. -/

structure SendAttemptEnv where
  tcpResp : Nat → String
  sendResp : String
  statusResp : String

abbrev SendEnv := Nat → SendAttemptEnv

def establish_attempts (resp : Nat → String) (connId : Int) (i : Nat) :
    Nat → EC800XState → Bool × EC800XState
  | 0, st => (false, st)
  | fuel + 1, st =>
    if pyIn ("+QIOPEN: " ++ toString connId ++ ",0") (resp i) then
      (true, { st with tcp_connected := true })
    else
      establish_attempts resp connId (i + 1) fuel st

def establish_tcp_connection (resp : Nat → String) (st : EC800XState) :
    Bool × EC800XState :=
  establish_attempts resp st.connection_id 0 3 st

/-- Statistics update of the success path (lines 640-648): increment
attempted and succeeded, add the packet bytes, recompute the success rate. -/
def success_update (s : Stats) (len : Nat) : Stats :=
  let s := { s with
    total_packets := s.total_packets + 1
    successful_packets := s.successful_packets + 1
    total_bytes := s.total_bytes + (len : Int) }
  if s.total_packets > 0 then
    { s with success_rate := qMul (qDiv (s.successful_packets : ℚ) (s.total_packets : ℚ)) 100 }
  else s

/-- The retry loop of `send_data_packet` (lines 612-663).  One attempt:
reconnect if the logical connection is down (`continue` on failure), send
`AT+QISEND` and look for the `>` prompt, write the packet, query the send
status and look for `0,0`; on success update the statistics and return. -/
def send_attempts (env : SendEnv) (packet : List Nat) (i : Nat) :
    Nat → EC800XState → Bool × EC800XState
  | 0, st => (false, st)
  | fuel + 1, st =>
    let a := env i
    let e := if st.tcp_connected then (true, st) else establish_tcp_connection a.tcpResp st
    let connOk := e.1
    let st1 := e.2
    if connOk then
      if pyIn ">" a.sendResp then
        let st2 := { st1 with packet_writes := st1.packet_writes ++ [packet] }
        if pyIn "0,0" a.statusResp then
          (true, { st2 with transmission_stats := success_update st2.transmission_stats packet.length })
        else
          send_attempts env packet (i + 1) fuel st2
      else
        send_attempts env packet (i + 1) fuel st1
    else
      send_attempts env packet (i + 1) fuel st1

def send_data_packet (env : SendEnv) (packet : List Nat) (sequence : Int)
    (st : EC800XState) : Bool × EC800XState :=
  let mr := st.transmission_config.max_retries
  let r := send_attempts env packet 0 mr st
  if r.1 then r
  else
    let s := r.2.transmission_stats
    (false, { r.2 with transmission_stats :=
      { s with
        total_packets := s.total_packets + 1
        failed_packets := s.failed_packets + 1
        retransmissions := s.retransmissions + ((mr : Int) - 1) } })

/-! ## `send_sensor_data` (lines 673-711)

Assess quality; if the report's signal-quality percentage is below 30,
enqueue and return `False`; otherwise re-tune the profile, build the packet
(whose `struct.error` propagates, see C1) and send it.  The optional
database save on success is an external collaborator and not modelled. -/

def send_sensor_data (m : ModemEnv) (senv : SendEnv) (now_iso : String)
    (seed_val : Int) (sensor_data : SensorRecord) (st : EC800XState) :
    Except PyErr Bool × EC800XState :=
  let a := assess_channel_quality m st
  let report := a.1
  let st1 := a.2
  if report.signal_quality < 30 then
    (.ok false, { st1 with data_queue := st1.data_queue ++ [sensor_data] })
  else
    let st2 := _adjust_transmission_parameters report st1
    let g := generate_data_packet sensor_data now_iso seed_val st2
    match g.1 with
    | .error e => (.error e, g.2)
    | .ok ps =>
      let r := send_data_packet senv ps.1 ps.2 g.2
      (.ok r.1, r.2)

/-! ## Spec-side definitions used to state the claims

`claimed_quality_score` transcribes the formula of claim C5 literally
("0.5×(signal-level/31×100) + 0.3×(30|10|20) + 0.2×success-rate, clamped to
[0,100] and floored"); `amended_quality_score` is the closed form the code
actually realizes; `band_of`/`preset_of` name the four §4.3 presets;
`tier_rank` orders the stability labels (较差 poor < 一般 fair < 良好 good <
优秀 excellent). -/

inductive NetClass3 where
  | attachedOrRegistered
  | explicitlyNot
  | otherwise
deriving DecidableEq

def claimed_quality_score (signal_level : Int) (net : NetClass3) (sr : Option ℚ) : Int :=
  let netPts : ℚ :=
    match net with
    | .attachedOrRegistered => 30
    | .explicitlyNot => 10
    | .otherwise => 20
  let raw : ℚ :=
    (1 / 2) * ((signal_level : ℚ) / 31 * 100) + (3 / 10) * netPts + (1 / 5) * sr.getD 0
  max 0 (min ⌊raw⌋ 100)

/-- Every `network_status` string the assessment can put in a report. -/
def status_strings : List String :=
  ["未注册", "已注册(本地)", "未注册(搜索中)", "注册被拒绝", "未知", "已注册(漫游)",
   "GPRS已附着", "GPRS未附着", "unknown"]

/-- The closed form the code's scoring actually computes: half the (already
floored and capped) signal-quality percentage, plus 30 points when the
status says registered or attached, 10 when it says explicitly not, 20
otherwise, plus a fifth of the historical success rate (0 without history),
truncated and capped at 100 (never negative, so no lower clamp is needed). -/
def amended_quality_score (rssi : Int) (ns : String) (stats : Stats) : Int :=
  let sq : ℚ := (signalQualityOf rssi : ℚ)
  let netPts : ℚ :=
    if ns = "已注册(本地)" ∨ ns = "已注册(漫游)" ∨ ns = "GPRS已附着" then 30
    else if ns = "未注册" ∨ ns = "未注册(搜索中)" ∨ ns = "GPRS未附着" then 10
    else 20
  let hist : ℚ := if stats.total_packets > 0 then stats.success_rate / 5 else 0
  min (pyTrunc (sq / 2 + netPts + hist)) 100

inductive Band where
  | excellent
  | good
  | fair
  | poor
deriving DecidableEq

def band_of (sq : Int) : Band :=
  if sq ≥ 80 then .excellent
  else if sq ≥ 60 then .good
  else if sq ≥ 40 then .fair
  else .poor

/-- The four fixed §4.3 presets: (packet-size, chunk-size, timeout,
max-retries, forward-error-correction, compression). -/
def preset_of : Band → Int × Int × Int × Nat × Bool × Bool
  | .excellent => (2048, 1024, 10, 3, false, true)
  | .good => (1024, 512, 15, 5, false, false)
  | .fair => (512, 256, 20, 8, true, false)
  | .poor => (256, 128, 30, 10, true, false)

def tier_rank (s : String) : Nat :=
  if s = "优秀" then 3
  else if s = "良好" then 2
  else if s = "一般" then 1
  else 0

/-- The §3 statistics invariant: every attempted packet is counted either
as succeeded or as failed. -/
def stats_balanced (s : Stats) : Prop :=
  s.total_packets = s.successful_packets + s.failed_packets

/-! ## Concrete fixtures used by counterexamples and witnesses -/

/-- Modem replies of the spec's §8 scenario: `+CSQ: 15,0`, registered,
attached. -/
def mC6 : ModemEnv :=
  { csqResp := "+CSQ: 15,0", cregResp := "+CREG: 0,1", cgattResp := "+CGATT: 1" }

/-- Modem replies with a weak signal: RSSI 5 gives signal quality 16 < 30. -/
def mLow : ModemEnv :=
  { csqResp := "+CSQ: 5,0", cregResp := "+CREG: 0,1", cgattResp := "+CGATT: 1" }

/-- An attempt whose `AT+QISEND` prompt and send status both succeed. -/
def eOk : SendAttemptEnv :=
  { tcpResp := fun _ => "", sendResp := ">", statusResp := "+QISEND: 3,3,0,0" }

/-- An attempt that times out: no `>` prompt ever arrives. -/
def eBad : SendAttemptEnv :=
  { tcpResp := fun _ => "", sendResp := "", statusResp := "" }

/-- First two attempts time out, the third succeeds. -/
def envC4 : SendEnv := fun i => if i = 2 then eOk else eBad

/-- Every attempt times out. -/
def envFail : SendEnv := fun _ => eBad

/-- A connected session whose profile says `max_retries = 3`. -/
def stC4 : EC800XState :=
  { initState with
    transmission_config := { initConfig with max_retries := 3 }
    tcp_connected := true }

/-- A sample telemetry record. -/
def recA : SensorRecord := [("temperature", JVal.jint 25)]

/-- A report with excellent signal quality, as handed to the controller. -/
def rC7 : QualityReport := { initReport with signal_quality := 85 }

/-- The state of §8's scenario seen through `_calculate_channel_quality_score`:
signal level 15 (hence signal quality 48) and registered status. -/
def rC5 : QualityReport :=
  { initReport with
    signal_strength := 15
    signal_quality := signalQualityOf 15
    network_status := "已注册(本地)" }

/-! ## Helper lemmas -/

theorem qAdd_eq (a b : ℚ) : qAdd a b = a + b := by
  have ha : ((a.den : ℚ)) ≠ 0 := by exact_mod_cast a.den_nz
  have hb : ((b.den : ℚ)) ≠ 0 := by exact_mod_cast b.den_nz
  rw [qAdd, Rat.divInt_eq_div]
  conv_rhs => rw [← Rat.num_div_den a, ← Rat.num_div_den b]
  rw [div_add_div _ _ ha hb]
  push_cast
  ring_nf

theorem qMul_eq (a b : ℚ) : qMul a b = a * b := by
  rw [qMul, Rat.divInt_eq_div]
  conv_rhs => rw [← Rat.num_div_den a, ← Rat.num_div_den b]
  rw [div_mul_div_comm]
  push_cast
  ring_nf

theorem qDiv_eq (a b : ℚ) : qDiv a b = a / b := by
  rcases eq_or_ne b 0 with rfl | hb0
  · rw [qDiv]
    norm_num
  · have ha : ((a.den : ℚ)) ≠ 0 := by exact_mod_cast a.den_nz
    have hb : ((b.den : ℚ)) ≠ 0 := by exact_mod_cast b.den_nz
    have hbn : ((b.num : ℚ)) ≠ 0 := by exact_mod_cast Rat.num_ne_zero.mpr hb0
    have haa : ((a.num : ℚ)) = a * a.den := (div_eq_iff ha).mp (Rat.num_div_den a)
    have hbb : ((b.num : ℚ)) = b * b.den := (div_eq_iff hb).mp (Rat.num_div_den b)
    rw [qDiv, Rat.divInt_eq_div]
    push_cast
    rw [div_eq_div_iff (mul_ne_zero hbn ha) hb0, haa, hbb]
    ring

example : pyTrunc (qAdd 48 (Rat.divInt 2 5)) = 48 := by decide
example : pyTrunc (-(qAdd 16 (Rat.divInt 1 10))) = -16 := by decide
example : qMul (Rat.divInt 1 2) 48 = 24 := by decide
example : pyIn "+CSQ:" "+CSQ: 15,0" = true := by decide
example : pySplitStr "," " 15,0" = [" 15", "0"] := by decide
example : pyStrip " 15" = "15" := by decide
example : parsePyInt "15" = some 15 := by decide

example : dumps_record [("a", .jint 3), ("b", .jstr "x")] = "\x7b\"a\": 3, \"b\": \"x\"\x7d" := by decide

theorem success_update_total (s : Stats) (len : Nat) :
    (success_update s len).total_packets = s.total_packets + 1 := by
  simp only [success_update]
  split <;> rfl

theorem success_update_succ (s : Stats) (len : Nat) :
    (success_update s len).successful_packets = s.successful_packets + 1 := by
  simp only [success_update]
  split <;> rfl

theorem success_update_failed (s : Stats) (len : Nat) :
    (success_update s len).failed_packets = s.failed_packets := by
  simp only [success_update]
  split <;> rfl

theorem success_update_retrans (s : Stats) (len : Nat) :
    (success_update s len).retransmissions = s.retransmissions := by
  simp only [success_update]
  split <;> rfl

theorem success_update_bytes (s : Stats) (len : Nat) :
    (success_update s len).total_bytes = s.total_bytes + (len : Int) := by
  simp only [success_update]
  split <;> rfl

theorem establish_attempts_stats (resp : Nat → String) (connId : Int) :
    ∀ fuel i st, ((establish_attempts resp connId i fuel st).2).transmission_stats
      = st.transmission_stats := by
  intro fuel
  induction fuel with
  | zero => intro i st; rfl
  | succ n ih =>
    intro i st
    simp only [establish_attempts]
    split
    · rfl
    · exact ih (i + 1) st

theorem establish_stats (resp : Nat → String) (st : EC800XState) :
    ((establish_tcp_connection resp st).2).transmission_stats = st.transmission_stats :=
  establish_attempts_stats resp st.connection_id 3 0 st

/-- Dichotomy for the retry loop: it either gives up with the statistics
untouched, or returns success with exactly one `success_update` applied. -/
theorem send_attempts_stats (env : SendEnv) (packet : List Nat) :
    ∀ fuel i st,
      ((send_attempts env packet i fuel st).1 = false ∧
        ((send_attempts env packet i fuel st).2).transmission_stats = st.transmission_stats) ∨
      ((send_attempts env packet i fuel st).1 = true ∧
        ((send_attempts env packet i fuel st).2).transmission_stats
          = success_update st.transmission_stats packet.length) := by
  intro fuel
  induction fuel with
  | zero => intro i st; exact Or.inl ⟨rfl, rfl⟩
  | succ n ih =>
    intro i st
    simp only [send_attempts]
    cases htcp : st.tcp_connected with
    | true =>
      simp only [htcp, if_true]
      cases hs : pyIn ">" (env i).sendResp with
      | true =>
        simp only [hs, if_true]
        cases hst : pyIn "0,0" (env i).statusResp with
        | true => simp only [hst, if_true]; exact Or.inr ⟨trivial, trivial⟩
        | false => simpa only [hst, Bool.false_eq_true, if_false] using ih (i + 1) _
      | false => simpa only [hs, Bool.false_eq_true, if_false] using ih (i + 1) _
    | false =>
      simp only [htcp, Bool.false_eq_true, if_false]
      cases hc : (establish_tcp_connection (env i).tcpResp st).1 with
      | true =>
        simp only [hc, if_true]
        cases hs : pyIn ">" (env i).sendResp with
        | true =>
          simp only [hs, if_true]
          cases hst : pyIn "0,0" (env i).statusResp with
          | true =>
            simp only [hst, if_true]
            exact Or.inr ⟨trivial, by simp only [establish_stats]⟩
          | false =>
            rcases ih (i + 1)
              ({ (establish_tcp_connection (env i).tcpResp st).2 with
                packet_writes := ((establish_tcp_connection (env i).tcpResp st).2).packet_writes ++ [packet] }) with
              ⟨h1, h2⟩ | ⟨h1, h2⟩
            · exact Or.inl ⟨by simpa only [hst, Bool.false_eq_true, if_false] using h1,
                by simpa only [hst, Bool.false_eq_true, if_false, establish_stats] using h2⟩
            · exact Or.inr ⟨by simpa only [hst, Bool.false_eq_true, if_false] using h1,
                by simpa only [hst, Bool.false_eq_true, if_false, establish_stats] using h2⟩
        | false =>
          rcases ih (i + 1) (establish_tcp_connection (env i).tcpResp st).2 with
            ⟨h1, h2⟩ | ⟨h1, h2⟩
          · exact Or.inl ⟨by simpa only [hs, Bool.false_eq_true, if_false] using h1,
              by simpa only [hs, Bool.false_eq_true, if_false, establish_stats] using h2⟩
          · exact Or.inr ⟨by simpa only [hs, Bool.false_eq_true, if_false] using h1,
              by simpa only [hs, Bool.false_eq_true, if_false, establish_stats] using h2⟩
      | false =>
        rcases ih (i + 1) (establish_tcp_connection (env i).tcpResp st).2 with
          ⟨h1, h2⟩ | ⟨h1, h2⟩
        · exact Or.inl ⟨by simpa only [hc, Bool.false_eq_true, if_false] using h1,
            by simpa only [hc, Bool.false_eq_true, if_false, establish_stats] using h2⟩
        · exact Or.inr ⟨by simpa only [hc, Bool.false_eq_true, if_false] using h1,
            by simpa only [hc, Bool.false_eq_true, if_false, establish_stats] using h2⟩

/-- If no attempt ever sees both the `>` prompt and a `0,0` send status, the
retry loop gives up. -/
theorem send_attempts_false_of_never_ok (env : SendEnv) (packet : List Nat)
    (hfail : ∀ j, ¬(pyIn ">" (env j).sendResp = true ∧ pyIn "0,0" (env j).statusResp = true)) :
    ∀ fuel i st, (send_attempts env packet i fuel st).1 = false := by
  intro fuel
  induction fuel with
  | zero => intro i st; rfl
  | succ n ih =>
    intro i st
    have hnot : ¬(pyIn ">" (env i).sendResp = true ∧ pyIn "0,0" (env i).statusResp = true) :=
      hfail i
    simp only [send_attempts]
    cases htcp : st.tcp_connected with
    | true =>
      simp only [htcp, if_true]
      cases hs : pyIn ">" (env i).sendResp with
      | true =>
        cases hst : pyIn "0,0" (env i).statusResp with
        | true => exact absurd ⟨hs, hst⟩ hnot
        | false => simp only [hs, if_true, hst, Bool.false_eq_true, if_false]; exact ih (i + 1) _
      | false => simp only [hs, Bool.false_eq_true, if_false]; exact ih (i + 1) _
    | false =>
      simp only [htcp, Bool.false_eq_true, if_false]
      cases hc : (establish_tcp_connection (env i).tcpResp st).1 with
      | true =>
        simp only [hc, if_true]
        cases hs : pyIn ">" (env i).sendResp with
        | true =>
          cases hst : pyIn "0,0" (env i).statusResp with
          | true => exact absurd ⟨hs, hst⟩ hnot
          | false =>
            simp only [hs, if_true, hst, Bool.false_eq_true, if_false]
            exact ih (i + 1) _
        | false => simp only [hs, Bool.false_eq_true, if_false]; exact ih (i + 1) _
      | false => simp only [hc, Bool.false_eq_true, if_false]; exact ih (i + 1) _

theorem tier_rank_excellent : tier_rank "优秀" = 3 := rfl

theorem tier_rank_good : tier_rank "良好" = 2 := rfl

theorem tier_rank_fair : tier_rank "一般" = 1 := rfl

theorem tier_rank_poor : tier_rank "较差" = 0 := rfl

/-! ## Claims -/

/-- C1: for every record (and every sampled timestamp and checksum seed),
`generate_data_packet` never returns a packet: `_calculate_crc32` hands a
`str` (the MD5 hexdigest) to `struct.pack('!II', …)`, which raises
`struct.error` after the sequence counter has already been incremented.  The
claimed 8-byte header + UTF-8 payload is therefore never produced. -/
theorem generate_data_packet_always_raises (data : SensorRecord) (now_iso : String)
    (seed_val : Int) (st : EC800XState) :
    (generate_data_packet data now_iso seed_val st).1 = .error .structError ∧
    (generate_data_packet data now_iso seed_val st).2 =
      { st with sequence_counter := st.sequence_counter + 1 } :=
  ⟨rfl, rfl⟩

/-- C2 (counterexample): two calls on the same record with the same next
sequence number serialize different payloads when the sampled
`checksum_seed` differs (1000 vs 1001), so the packet bytes the claimed
layout would carry differ as well: encoding is not deterministic in the
record and sequence number alone. -/
theorem payload_depends_on_sampled_seed :
    payload_json recA 0 "2024-01-01T00:00:00" 1000 ≠
      payload_json recA 0 "2024-01-01T00:00:00" 1001 ∧
    utf8Encode (payload_json recA 0 "2024-01-01T00:00:00" 1000) ≠
      utf8Encode (payload_json recA 0 "2024-01-01T00:00:00" 1001) := by
  constructor <;> decide

/-- C2 (amended): encoding is deterministic once the per-call samples are
part of the input: calls that agree on the record, the next sequence number,
the sampled timestamp, and the sampled checksum seed serialize identical
payloads and produce identical outcomes. -/
theorem generate_data_packet_deterministic (d1 d2 : SensorRecord) (t1 t2 : String)
    (v1 v2 : Int) (st1 st2 : EC800XState) (hd : d1 = d2)
    (hs : st1.sequence_counter = st2.sequence_counter) (ht : t1 = t2) (hv : v1 = v2) :
    payload_json d1 st1.sequence_counter t1 v1 = payload_json d2 st2.sequence_counter t2 v2 ∧
    (generate_data_packet d1 t1 v1 st1).1 = (generate_data_packet d2 t2 v2 st2).1 := by
  subst hd
  subst ht
  subst hv
  constructor
  · rw [hs]
  · simp only [generate_data_packet, hs]
    cases struct_pack_II (PyVal.pyInt st2.sequence_counter)
      (_calculate_crc32 (payload_json d1 st2.sequence_counter t1 v1)) <;> rfl

theorem generate_data_packet_deterministic_witness :
    payload_json recA initState.sequence_counter "T" 1234 =
      payload_json recA initState.sequence_counter "T" 1234 ∧
    (generate_data_packet recA "T" 1234 initState).1 =
      (generate_data_packet recA "T" 1234 initState).1 :=
  generate_data_packet_deterministic recA recA "T" "T" 1234 1234 initState initState
    rfl rfl rfl rfl

/-- C6 (counterexample): on the reply `+CSQ: 15,0` with the network
registered and attached and no history, the assessment does not produce the
claimed score ≈ 24, tier poor (较差), action defer (等待恢复). -/
theorem assess_csq15_not_poor_defer :
    (assess_channel_quality mC6 initState).2.channel_state.quality_score ≠ 24 ∧
    (assess_channel_quality mC6 initState).1.stability ≠ "较差" ∧
    (assess_channel_quality mC6 initState).1.recommended_action ≠ "等待恢复" := by
  refine ⟨?_, ?_, ?_⟩ <;> decide

/-- C6 (amended): the scenario actually yields signal quality 48, combined
score 0.5×48 + 30 = 54, tier fair (一般), and recommended action
reduce-packet-size (小包传输). -/
theorem assess_csq15_scenario :
    (assess_channel_quality mC6 initState).1.signal_strength = 15 ∧
    (assess_channel_quality mC6 initState).1.signal_quality = 48 ∧
    (assess_channel_quality mC6 initState).2.channel_state.quality_score = 54 ∧
    (assess_channel_quality mC6 initState).1.stability = "一般" ∧
    (assess_channel_quality mC6 initState).1.recommended_action = "小包传输" := by
  refine ⟨?_, ?_, ?_, ?_, ?_⟩ <;> decide

/-- C7 (counterexample): with the same quality report (signal quality 85,
hence the same tier), two starting profiles that differ only in
`retry_delay` are re-tuned to different profiles — the resulting
`TransmissionProfile` is not a function of the tier alone, because
`dict.update` leaves `retry_delay` at its previous value. -/
theorem adjust_not_pure_function_of_tier :
    (_adjust_transmission_parameters rC7
        { initState with transmission_config := { initConfig with retry_delay := 7 } }).transmission_config ≠
      (_adjust_transmission_parameters rC7 initState).transmission_config ∧
    (_adjust_transmission_parameters rC7
        { initState with transmission_config := { initConfig with retry_delay := 7 } }).transmission_config.retry_delay = 7 := by
  constructor <;> decide

/-- C7 (amended): the controller overwrites exactly six fields —
packet-size, chunk-size, timeout, max-retries, error-correction and
compression — as a pure function of the signal-quality band (≥80 / ≥60 /
≥40 / below), while `retry_delay` and the remaining flags keep their
previous values: the profile is merged, not wholly replaced. -/
theorem adjust_updates_exactly_the_six_preset_fields (qr : QualityReport)
    (st : EC800XState) :
    (_adjust_transmission_parameters qr st).transmission_config.retry_delay =
      st.transmission_config.retry_delay ∧
    (_adjust_transmission_parameters qr st).transmission_config.use_checksum =
      st.transmission_config.use_checksum ∧
    (_adjust_transmission_parameters qr st).transmission_config.use_sequence =
      st.transmission_config.use_sequence ∧
    (_adjust_transmission_parameters qr st).transmission_config.adaptive_mode =
      st.transmission_config.adaptive_mode ∧
    ((_adjust_transmission_parameters qr st).transmission_config.packet_size,
      (_adjust_transmission_parameters qr st).transmission_config.chunk_size,
      (_adjust_transmission_parameters qr st).transmission_config.timeout,
      (_adjust_transmission_parameters qr st).transmission_config.max_retries,
      (_adjust_transmission_parameters qr st).transmission_config.enable_fec,
      (_adjust_transmission_parameters qr st).transmission_config.compress_data) =
      preset_of (band_of qr.signal_quality) := by
  simp only [_adjust_transmission_parameters, band_of]
  split_ifs <;> simp [preset_of]

/-- C3 (counterexample): with a weak signal (RSSI 5, signal quality 16 < 30)
the record is deferred, but `send_sensor_data` returns `False` — exactly the
value its own contract uses to report a failed send ("False表示失败"), so the
deferred outcome is not distinguishable from a failure. -/
theorem deferral_returns_the_failure_value :
    (send_sensor_data mLow envFail "T" 1000 recA initState).1 = .ok false ∧
    (send_sensor_data mLow envFail "T" 1000 recA initState).2.data_queue = [recA] := by
  constructor
  · rfl
  · decide

/-- C3 (amended): when the report's signal quality at send time is below 30,
`send_sensor_data` enqueues the record on the deferred queue and makes no
send attempt — no packet is built (the sequence counter is untouched),
nothing is written to the transport, the profile and statistics are
unchanged — but it returns `False`, the same value used to report a failed
send, rather than a distinct "deferred" outcome. -/
theorem send_sensor_data_defers_below_30 (m : ModemEnv) (senv : SendEnv)
    (now_iso : String) (seed_val : Int) (sensor_data : SensorRecord) (st : EC800XState)
    (hq : (assess_channel_quality m st).1.signal_quality < 30) :
    (send_sensor_data m senv now_iso seed_val sensor_data st).1 = .ok false ∧
    (send_sensor_data m senv now_iso seed_val sensor_data st).2.data_queue =
      st.data_queue ++ [sensor_data] ∧
    (send_sensor_data m senv now_iso seed_val sensor_data st).2.sequence_counter =
      st.sequence_counter ∧
    (send_sensor_data m senv now_iso seed_val sensor_data st).2.packet_writes =
      st.packet_writes ∧
    (send_sensor_data m senv now_iso seed_val sensor_data st).2.transmission_stats =
      st.transmission_stats ∧
    (send_sensor_data m senv now_iso seed_val sensor_data st).2.transmission_config =
      st.transmission_config := by
  simp only [send_sensor_data, if_pos hq]
  refine ⟨?_, ?_, ?_, ?_, ?_, ?_⟩ <;> first | rfl | trivial

theorem send_sensor_data_defers_below_30_witness :
    (assess_channel_quality mLow initState).1.signal_quality < 30 ∧
    ((send_sensor_data mLow envFail "T" 1000 recA initState).1 = .ok false ∧
     (send_sensor_data mLow envFail "T" 1000 recA initState).2.data_queue =
       initState.data_queue ++ [recA] ∧
     (send_sensor_data mLow envFail "T" 1000 recA initState).2.sequence_counter =
       initState.sequence_counter ∧
     (send_sensor_data mLow envFail "T" 1000 recA initState).2.packet_writes =
       initState.packet_writes ∧
     (send_sensor_data mLow envFail "T" 1000 recA initState).2.transmission_stats =
       initState.transmission_stats ∧
     (send_sensor_data mLow envFail "T" 1000 recA initState).2.transmission_config =
       initState.transmission_config) :=
  ⟨by decide, send_sensor_data_defers_below_30 mLow envFail "T" 1000 recA initState (by decide)⟩

/-- C9: the score-to-tier mapping of the assessment (优秀 excellent /
良好 good / 一般 fair / 较差 poor) is total on 0–100, follows the fixed
thresholds, carries the recommended actions 正常传输 (transmit normally) for
excellent and good, 小包传输 (reduce packet size) for fair, 等待恢复 (defer)
for poor, and is monotone in the score. -/
theorem tier_mapping_total_monotone (q : Int) (h0 : 0 ≤ q) (h1 : q ≤ 100) :
    (80 ≤ q → quality_tier_action q = ("优秀", "正常传输")) ∧
    (60 ≤ q ∧ q < 80 → quality_tier_action q = ("良好", "正常传输")) ∧
    (40 ≤ q ∧ q < 60 → quality_tier_action q = ("一般", "小包传输")) ∧
    (q < 40 → quality_tier_action q = ("较差", "等待恢复")) ∧
    (∀ q2 : Int, q ≤ q2 →
      tier_rank (quality_tier_action q).1 ≤ tier_rank (quality_tier_action q2).1) := by
  refine ⟨?_, ?_, ?_, ?_, ?_⟩
  · intro h
    simp only [quality_tier_action]
    rw [if_pos h]
  · rintro ⟨ha, hb⟩
    simp only [quality_tier_action]
    rw [if_neg (by omega), if_pos ha]
  · rintro ⟨ha, hb⟩
    simp only [quality_tier_action]
    rw [if_neg (by omega), if_neg (by omega), if_pos ha]
  · intro h
    simp only [quality_tier_action]
    rw [if_neg (by omega), if_neg (by omega), if_neg (by omega)]
  · intro q2 hle
    simp only [quality_tier_action]
    split_ifs <;> dsimp only <;>
      simp only [tier_rank_excellent, tier_rank_good, tier_rank_fair, tier_rank_poor] <;>
      omega

theorem tier_mapping_total_monotone_witness :
    (0 : Int) ≤ 85 ∧ (85 : Int) ≤ 100 ∧
    ((80 ≤ (85 : Int) → quality_tier_action 85 = ("优秀", "正常传输")) ∧
     (60 ≤ (85 : Int) ∧ (85 : Int) < 80 → quality_tier_action 85 = ("良好", "正常传输")) ∧
     (40 ≤ (85 : Int) ∧ (85 : Int) < 60 → quality_tier_action 85 = ("一般", "小包传输")) ∧
     ((85 : Int) < 40 → quality_tier_action 85 = ("较差", "等待恢复")) ∧
     (∀ q2 : Int, 85 ≤ q2 →
       tier_rank (quality_tier_action 85).1 ≤ tier_rank (quality_tier_action q2).1)) :=
  ⟨by decide, by decide, tier_mapping_total_monotone 85 (by decide) (by decide)⟩

/-- C5 (counterexample): at signal level 15 (signal quality 48), registered
network, no history, the code scores 0.5×48 + 30 = 54, while the claim's
formula 0.5×(15/31×100) + 0.3×30 + 0.2×0 floors to 33: the claimed equality
fails (the 30/10/20 network points are added as-is, not weighted by 0.3, and
the signal term uses the already-floored percentage). -/
theorem quality_score_formula_cex :
    _calculate_channel_quality_score rC5 initStats = 54 ∧
    claimed_quality_score 15 .attachedOrRegistered none = 33 ∧
    (54 : Int) ≠ 33 := by
  refine ⟨by decide, ?_, by decide⟩
  norm_num [claimed_quality_score]

/-- C5 (amended): for every signal level, every network-status string the
assessment can produce, and every transmission history, the score equals
`min(trunc(sq/2 + net + hist), 100)` where `sq` is the floored-and-capped
signal percentage `min(trunc(rssi/31×100), 100)` (0 if rssi = 99), `net` is
30 when the status says registered or attached, 10 when it says explicitly
not, 20 otherwise (the 0.3 weight is already folded into these points), and
`hist` is success-rate/5 with history and 0 without. -/
theorem quality_score_closed_form (rssi : Int) (stats : Stats) (qr : QualityReport)
    (ns : String) (hsq : qr.signal_quality = signalQualityOf rssi)
    (hns2 : qr.network_status = ns) (hns : ns ∈ status_strings) :
    _calculate_channel_quality_score qr stats = amended_quality_score rssi ns stats := by
  simp only [_calculate_channel_quality_score, amended_quality_score, hsq, hns2,
    qAdd_eq, qMul_eq, qDiv_eq, Rat.divInt_eq_div]
  fin_cases hns <;>
    simp +decide <;>
    by_cases hp : stats.total_packets > 0 <;>
    simp [hp] <;>
    (congr 1 <;> push_cast <;> ring)

theorem quality_score_closed_form_witness :
    rC5.signal_quality = signalQualityOf 15 ∧
    rC5.network_status = "已注册(本地)" ∧
    "已注册(本地)" ∈ status_strings ∧
    _calculate_channel_quality_score rC5 initStats =
      amended_quality_score 15 "已注册(本地)" initStats :=
  ⟨by decide, by decide, by decide,
    quality_score_closed_form 15 initStats rC5 "已注册(本地)" (by decide) (by decide) (by decide)⟩

/-- One failed attempt (no `>` prompt) on a connected session just moves to
the next attempt. -/
theorem send_attempts_step_fail (env : SendEnv) (packet : List Nat) (i fuel : Nat)
    (st : EC800XState) (htcp : st.tcp_connected = true)
    (hs : pyIn ">" (env i).sendResp = false) :
    send_attempts env packet i (fuel + 1) st = send_attempts env packet (i + 1) fuel st := by
  simp only [send_attempts, htcp, if_true, hs, Bool.false_eq_true, if_false]

/-- A successful attempt on a connected session returns immediately with the
packet written and the success statistics applied. -/
theorem send_attempts_step_ok (env : SendEnv) (packet : List Nat) (i fuel : Nat)
    (st : EC800XState) (htcp : st.tcp_connected = true)
    (hs : pyIn ">" (env i).sendResp = true)
    (hst : pyIn "0,0" (env i).statusResp = true) :
    send_attempts env packet i (fuel + 1) st =
      (true, { st with
        packet_writes := st.packet_writes ++ [packet]
        transmission_stats := success_update st.transmission_stats packet.length }) := by
  simp only [send_attempts, htcp, if_true, hs, hst]

/-- C4 (counterexample): profile `max_retries = 3`, attempts 0 and 1 time
out, attempt 2 succeeds: the send returns success with attempted+1 and
succeeded+1, but `retransmissions` stays 0 — not the claimed +2 (the success
path never touches the retransmission counter). -/
theorem third_attempt_success_without_retransmissions :
    (send_data_packet envC4 [1, 2, 3] 0 stC4).1 = true ∧
    (send_data_packet envC4 [1, 2, 3] 0 stC4).2.transmission_stats.total_packets = 1 ∧
    (send_data_packet envC4 [1, 2, 3] 0 stC4).2.transmission_stats.successful_packets = 1 ∧
    (send_data_packet envC4 [1, 2, 3] 0 stC4).2.transmission_stats.retransmissions = 0 ∧
    (0 : Int) ≠ 0 + 2 := by
  refine ⟨?_, ?_, ?_, ?_, ?_⟩ <;> decide

/-- C4 (amended): with `max_retries = 3` on a connected session, if the
first two attempts fail to get the `>` prompt and the third sees the prompt
and a `0,0` status, `send_data_packet` returns success and changes the
statistics by exactly attempted+1 and succeeded+1, with `retransmissions`
(and `failed_packets`) unchanged — the code counts retransmissions only when
a send fails outright. -/
theorem send_success_on_third_attempt (env : SendEnv) (packet : List Nat)
    (sequence : Int) (st : EC800XState)
    (hmr : st.transmission_config.max_retries = 3)
    (htcp : st.tcp_connected = true)
    (h0 : pyIn ">" (env 0).sendResp = false)
    (h1 : pyIn ">" (env 1).sendResp = false)
    (h2 : pyIn ">" (env 2).sendResp = true)
    (h2s : pyIn "0,0" (env 2).statusResp = true) :
    (send_data_packet env packet sequence st).1 = true ∧
    (send_data_packet env packet sequence st).2.transmission_stats.total_packets =
      st.transmission_stats.total_packets + 1 ∧
    (send_data_packet env packet sequence st).2.transmission_stats.successful_packets =
      st.transmission_stats.successful_packets + 1 ∧
    (send_data_packet env packet sequence st).2.transmission_stats.retransmissions =
      st.transmission_stats.retransmissions ∧
    (send_data_packet env packet sequence st).2.transmission_stats.failed_packets =
      st.transmission_stats.failed_packets := by
  have hrun : send_attempts env packet 0 3 st =
      (true, { st with
        packet_writes := st.packet_writes ++ [packet]
        transmission_stats := success_update st.transmission_stats packet.length }) := by
    calc send_attempts env packet 0 3 st
        = send_attempts env packet 1 2 st :=
          send_attempts_step_fail env packet 0 2 st htcp h0
      _ = send_attempts env packet 2 1 st :=
          send_attempts_step_fail env packet 1 1 st htcp h1
      _ = (true, { st with
            packet_writes := st.packet_writes ++ [packet]
            transmission_stats := success_update st.transmission_stats packet.length }) :=
          send_attempts_step_ok env packet 2 0 st htcp h2 h2s
  have hmain : send_data_packet env packet sequence st =
      (true, { st with
        packet_writes := st.packet_writes ++ [packet]
        transmission_stats := success_update st.transmission_stats packet.length }) := by
    simp only [send_data_packet, hmr, hrun, if_true]
  rw [hmain]
  exact ⟨rfl, success_update_total st.transmission_stats packet.length,
    success_update_succ st.transmission_stats packet.length,
    success_update_retrans st.transmission_stats packet.length,
    success_update_failed st.transmission_stats packet.length⟩

theorem send_success_on_third_attempt_witness :
    stC4.transmission_config.max_retries = 3 ∧ stC4.tcp_connected = true ∧
    pyIn ">" (envC4 0).sendResp = false ∧ pyIn ">" (envC4 1).sendResp = false ∧
    pyIn ">" (envC4 2).sendResp = true ∧ pyIn "0,0" (envC4 2).statusResp = true ∧
    ((send_data_packet envC4 [1, 2, 3] 7 stC4).1 = true ∧
     (send_data_packet envC4 [1, 2, 3] 7 stC4).2.transmission_stats.total_packets =
       stC4.transmission_stats.total_packets + 1 ∧
     (send_data_packet envC4 [1, 2, 3] 7 stC4).2.transmission_stats.successful_packets =
       stC4.transmission_stats.successful_packets + 1 ∧
     (send_data_packet envC4 [1, 2, 3] 7 stC4).2.transmission_stats.retransmissions =
       stC4.transmission_stats.retransmissions ∧
     (send_data_packet envC4 [1, 2, 3] 7 stC4).2.transmission_stats.failed_packets =
       stC4.transmission_stats.failed_packets) :=
  ⟨by decide, by decide, by decide, by decide, by decide, by decide,
    send_success_on_third_attempt envC4 [1, 2, 3] 7 stC4 (by decide) (by decide)
      (by decide) (by decide) (by decide) (by decide)⟩

/-- C8: whenever no attempt sees both the `>` prompt and a `0,0` status —
`max_retries` consecutive failed delivery attempts — `send_data_packet`
returns failure and changes the statistics by exactly attempted+1, failed+1,
and retransmissions+(max_retries − 1), with succeeded unchanged. -/
theorem send_exhausted_retries (env : SendEnv) (packet : List Nat) (sequence : Int)
    (st : EC800XState)
    (hfail : ∀ j, ¬(pyIn ">" (env j).sendResp = true ∧ pyIn "0,0" (env j).statusResp = true)) :
    (send_data_packet env packet sequence st).1 = false ∧
    (send_data_packet env packet sequence st).2.transmission_stats.total_packets =
      st.transmission_stats.total_packets + 1 ∧
    (send_data_packet env packet sequence st).2.transmission_stats.failed_packets =
      st.transmission_stats.failed_packets + 1 ∧
    (send_data_packet env packet sequence st).2.transmission_stats.successful_packets =
      st.transmission_stats.successful_packets ∧
    (send_data_packet env packet sequence st).2.transmission_stats.retransmissions =
      st.transmission_stats.retransmissions +
        ((st.transmission_config.max_retries : Int) - 1) := by
  have hf := send_attempts_false_of_never_ok env packet hfail
    st.transmission_config.max_retries 0 st
  rcases send_attempts_stats env packet st.transmission_config.max_retries 0 st with
    ⟨h1, h2⟩ | ⟨h1, h2⟩
  · simp only [send_data_packet, h1, Bool.false_eq_true, if_false]
    refine ⟨trivial, ?_, ?_, ?_, ?_⟩ <;> simp only [h2]
  · rw [h1] at hf
    exact absurd hf (by simp)

theorem send_exhausted_retries_witness :
    (send_data_packet envFail [1, 2, 3] 0 stC4).1 = false ∧
    (send_data_packet envFail [1, 2, 3] 0 stC4).2.transmission_stats.total_packets =
      stC4.transmission_stats.total_packets + 1 ∧
    (send_data_packet envFail [1, 2, 3] 0 stC4).2.transmission_stats.failed_packets =
      stC4.transmission_stats.failed_packets + 1 ∧
    (send_data_packet envFail [1, 2, 3] 0 stC4).2.transmission_stats.successful_packets =
      stC4.transmission_stats.successful_packets ∧
    (send_data_packet envFail [1, 2, 3] 0 stC4).2.transmission_stats.retransmissions =
      stC4.transmission_stats.retransmissions +
        ((stC4.transmission_config.max_retries : Int) - 1) :=
  send_exhausted_retries envFail [1, 2, 3] 0 stC4
    (fun j => by simp only [envFail]; decide)

/-- C10: `send_data_packet` preserves the statistics invariant
`total_packets = successful_packets + failed_packets` on both the success
path and the exhausted-retries failure path. -/
theorem send_data_packet_preserves_balance (env : SendEnv) (packet : List Nat)
    (sequence : Int) (st : EC800XState)
    (hinv : stats_balanced st.transmission_stats) :
    stats_balanced (send_data_packet env packet sequence st).2.transmission_stats := by
  rcases send_attempts_stats env packet st.transmission_config.max_retries 0 st with
    ⟨h1, h2⟩ | ⟨h1, h2⟩
  · simp only [send_data_packet, h1, Bool.false_eq_true, if_false]
    simp only [stats_balanced] at hinv ⊢
    simp only [h2]
    omega
  · simp only [send_data_packet, h1, if_true]
    simp only [stats_balanced] at hinv ⊢
    simp only [h2, success_update_total, success_update_succ, success_update_failed]
    omega

theorem send_data_packet_preserves_balance_witness :
    stats_balanced initState.transmission_stats ∧
    stats_balanced (send_data_packet envFail [1, 2, 3] 0 initState).2.transmission_stats :=
  ⟨rfl, send_data_packet_preserves_balance envFail [1, 2, 3] 0 initState rfl⟩
